import Mathlib

/-!
Verification development for `datasets.py` of the FISTA repository
(danstowell/FISTA): a shallow embedding, in Lean 4, of the dataset
download/cache/convert pipeline and of the class-pair subset selection
algorithm, together with theorems settling the specification's claims.

Conventions of the embedding:
  * numpy 2-D label arrays become `List (List Int)` (rows of columns);
  * Python functions that can raise become values of `PyResult`;
  * the effectful parts (network, file system) are modelled by explicit
    environment records saying how each external call would turn out, and
    by run records collecting the observable behaviour (result, network
    requests made, file-handle state, directory deletion, call counts).
-/

namespace Datasets

/-- Outcome of a Python call: a returned value, or a raised exception
(identified by the exception's name). -/
inductive PyResult (α : Type) where
  | ok : α → PyResult α
  | exn : String → PyResult α
  deriving DecidableEq

/-! ## SubsetSelector: `unique_indices` (datasets.py lines 398-431)

`unique_indices(y, column1, column2, n_indices)` computes

    mask1 = (y[:, column1] == 1) & ~((np.delete(y, [column1], 1) == 1).any(axis=1))
    mask2 = (y[:, column2] == 1) & ~((np.delete(y, [column2], 1) == 1).any(axis=1))
    mask1 = np.arange(n_samples)[mask1 == True]
    mask2 = np.arange(n_samples)[mask2 == True]
    return np.concatenate((mask1[:n_indices], mask2[:n_indices]))
-/

/-- The per-row test embodied by `mask1`/`mask2`: entry at `c` equals 1, and no
entry of the row with column `c` removed (`np.delete(y, [c], 1)`) equals 1. -/
def exclusiveTo (row : List Int) (c : Nat) : Bool :=
  (row.getD c 0 == 1) && !((row.eraseIdx c).any (fun v => v == 1))

/-- Model of `np.arange(n_samples)[mask == True]`: the row indices, in ascending order,
whose row passes `exclusiveTo · c`. -/
def maskIndices (y : List (List Int)) (c : Nat) : List Nat :=
  (List.range y.length).filter (fun i => exclusiveTo (y.getD i []) c)

/-- Model of `unique_indices` (datasets.py lines 398-431): the first `n_indices` indices
exclusive to `column1`, then the first `n_indices` indices exclusive to
`column2` (`mask[:n]` slicing never errors when fewer elements exist). -/
def unique_indices (y : List (List Int)) (column1 column2 n_indices : Nat) : List Nat :=
  (maskIndices y column1).take n_indices ++ (maskIndices y column2).take n_indices

/-! Spec-side definitions, written from the specification's words, for the
refinement statement of claim C1. -/

/-- Written from the spec: a sample `i` is "exclusive to class `c`" if its
flag in column `c` is 1 and every other column's flag (among the `ncols`
columns) is not 1. -/
def specExclusive (y : List (List Int)) (ncols i c : Nat) : Bool :=
  ((y.getD i []).getD c 0 == 1) &&
    ((List.range ncols).all (fun j => (j == c) || !((y.getD i []).getD j 0 == 1)))

/-- Written from the spec: the indices of samples exclusive to class `c`, in
ascending original row order. -/
def specBlock (y : List (List Int)) (ncols c : Nat) : List Nat :=
  (List.range y.length).filter (fun i => specExclusive y ncols i c)

/-! ## FileFetcher: `_fetch_file` (datasets.py lines 160-210)

    file_name = os.path.basename(url)
    full_name = os.path.join(data_dir, file_name)
    if not os.path.exists(full_name):
        try:
            req = urllib2.Request(url)
            data = urllib2.urlopen(req)
            local_file = open(full_name, "wb")
            _chunk_read_(data, local_file, report_hook=True)
        except urllib2.HTTPError, e:
            return None
        except urllib2.URLError, e:
            return None
        finally:
            local_file.close()
    return full_name

The environment says whether the target file already exists, how the single
network request (`urllib2.urlopen`) would turn out, and whether the chunked
body transfer would complete.  The run record reports the Python-level result,
how many network requests were made, and the local file handle's state. -/

/-- Outcome of `urllib2.urlopen`: success, an HTTP-status failure
(`urllib2.HTTPError`), or a connection failure (`urllib2.URLError`). -/
inductive UrlopenOutcome where
  | ok
  | httpError
  | urlError
  deriving DecidableEq

/-- Environment of one `_fetch_file` call. -/
structure FetchEnv where
  fileExists : Bool
  urlopen : UrlopenOutcome
  transferOk : Bool
  deriving DecidableEq

/-- Observable behaviour of one `_fetch_file` call. `result` is `.ok` with the
returned value (`some path` or `none` for Python `None`), or `.exn` with the
name of the exception the call raises. -/
structure FetchFileRun where
  result : PyResult (Option String)
  networkRequests : Nat
  handleOpened : Bool
  handleClosed : Bool
  deriving DecidableEq

/-- Model of `os.path.basename`: the part of the URL after the last slash. -/
def basename (url : String) : String :=
  String.mk ((url.data.reverse.takeWhile (fun c => c ≠ '/')).reverse)

/-- Model of `os.path.join(data_dir, file_name)`. -/
def pathJoin (dir file_name : String) : String :=
  dir ++ "/" ++ file_name

/-- Model of `_fetch_file(url, data_dir)` (datasets.py lines 160-210).

Control flow of the source, branch by branch:
  * the target file exists: the body of `if not os.path.exists` is skipped and
    `full_name` is returned with no network request;
  * `urlopen` raises `HTTPError` or `URLError`: the matching except clause
    prints and executes `return None`; the `finally` clause then runs
    `local_file.close()`, but `local_file` was never bound (both exceptions are
    raised by `urlopen`, before `open(full_name, "wb")` runs), so the close
    raises `NameError` (an `UnboundLocalError`), which replaces the pending
    `return None`: the call raises instead of returning;
  * `urlopen` succeeds and the transfer completes: the handle is opened,
    written, closed by `finally`, and `full_name` is returned;
  * `urlopen` succeeds but the body read inside `_chunk_read_` raises (e.g. a
    socket error): that exception matches neither except clause, the `finally`
    clause closes the handle, and the exception propagates. -/
def fetch_file (url data_dir : String) (env : FetchEnv) : FetchFileRun :=
  let full_name := pathJoin data_dir (basename url)
  if env.fileExists then
    { result := .ok (some full_name), networkRequests := 0,
      handleOpened := false, handleClosed := false }
  else
    match env.urlopen with
    | .httpError =>
      { result := .exn "NameError", networkRequests := 1,
        handleOpened := false, handleClosed := false }
    | .urlError =>
      { result := .exn "NameError", networkRequests := 1,
        handleOpened := false, handleClosed := false }
    | .ok =>
      if env.transferOk then
        { result := .ok (some full_name), networkRequests := 1,
          handleOpened := true, handleClosed := true }
      else
        { result := .exn "socket.error", networkRequests := 1,
          handleOpened := true, handleClosed := true }

/-! ## DatasetAcquirer: `_fetch_dataset` (datasets.py lines 213-260)

    files = []
    for url in urls:
        full_name = _fetch_file(url, data_dir)
        if not full_name:
            print 'An error occured, abort fetching'
            shutil.rmtree(data_dir)
        if uncompress:
            try:
                _uncompress_file(full_name)
            except Exception:
                print 'archive corrupted, trying to download it again'
                _fetch_file(url, data_dir)
                _uncompress_file(full_name)
        files.append(os.path.splitext(full_name)[0])
    return files
-/

/-- Model of `os.path.splitext(p)[0]`: `p` with its last dot-extension stripped (`p`
itself when it has no dot). -/
def splitextBase (p : String) : String :=
  let rev := p.data.reverse
  if '.' ∈ rev then String.mk (((rev.dropWhile (fun c => c ≠ '.')).drop 1).reverse) else p

/-- Per-URL environment of `_fetch_dataset`: the environments of the (at most
two) `_fetch_file` calls on that URL, and whether each of the (at most two)
`_uncompress_file` attempts on the downloaded archive would succeed. -/
structure UrlSpec where
  url : String
  fenv1 : FetchEnv
  fenv2 : FetchEnv
  extract1Ok : Bool
  extract2Ok : Bool
  deriving DecidableEq

/-- Observable behaviour of one iteration of the `for url in urls` loop. -/
structure UrlRun where
  result : PyResult String
  fetchCalls : Nat
  extractCalls : Nat
  dirDeleted : Bool
  networkRequests : Nat
  deriving DecidableEq

/-- One iteration of the loop of `_fetch_dataset` (datasets.py lines 244-258).

Branch by branch:
  * `_fetch_file` raises: the exception propagates out of the loop at once
    (the call at line 245 is not inside any try block);
  * `_fetch_file` returns `None` (Python falsy): the `if not full_name` branch
    prints and deletes the whole dataset directory, and control then falls
    through, still holding `full_name = None`; with `uncompress`,
    `_uncompress_file(None)` raises `TypeError` at `os.path.dirname(None)`,
    the `except Exception` clause re-fetches (discarding the result) and calls
    `_uncompress_file(None)` again, which raises the same `TypeError`,
    uncaught this time; without `uncompress`,
    `os.path.splitext(None)` raises `AttributeError`;
  * `_fetch_file` returns a path: with `uncompress`, a failing first
    extraction is retried exactly once after a re-fetch of the same URL
    (whose returned value is discarded; only an exception from it matters),
    and a second extraction failure propagates; on success the path with its
    extension stripped is appended to `files`. -/
def processUrl (data_dir : String) (uncompress : Bool) (u : UrlSpec) : UrlRun :=
  let r1 := fetch_file u.url data_dir u.fenv1
  match r1.result with
  | .exn e =>
    { result := .exn e, fetchCalls := 1, extractCalls := 0,
      dirDeleted := false, networkRequests := r1.networkRequests }
  | .ok none =>
    if uncompress then
      let r2 := fetch_file u.url data_dir u.fenv2
      match r2.result with
      | .exn e =>
        { result := .exn e, fetchCalls := 2, extractCalls := 1,
          dirDeleted := true, networkRequests := r1.networkRequests + r2.networkRequests }
      | .ok _ =>
        { result := .exn "TypeError", fetchCalls := 2, extractCalls := 2,
          dirDeleted := true, networkRequests := r1.networkRequests + r2.networkRequests }
    else
      { result := .exn "AttributeError", fetchCalls := 1, extractCalls := 0,
        dirDeleted := true, networkRequests := r1.networkRequests }
  | .ok (some full_name) =>
    if uncompress then
      if u.extract1Ok then
        { result := .ok (splitextBase full_name), fetchCalls := 1, extractCalls := 1,
          dirDeleted := false, networkRequests := r1.networkRequests }
      else
        let r2 := fetch_file u.url data_dir u.fenv2
        match r2.result with
        | .exn e =>
          { result := .exn e, fetchCalls := 2, extractCalls := 1,
            dirDeleted := false, networkRequests := r1.networkRequests + r2.networkRequests }
        | .ok _ =>
          if u.extract2Ok then
            { result := .ok (splitextBase full_name), fetchCalls := 2, extractCalls := 2,
              dirDeleted := false, networkRequests := r1.networkRequests + r2.networkRequests }
          else
            { result := .exn "ExtractionError", fetchCalls := 2, extractCalls := 2,
              dirDeleted := false, networkRequests := r1.networkRequests + r2.networkRequests }
    else
      { result := .ok (splitextBase full_name), fetchCalls := 1, extractCalls := 0,
        dirDeleted := false, networkRequests := r1.networkRequests }

/-- Observable behaviour of a whole `_fetch_dataset` call. `urlsEntered` counts
how many loop iterations began. -/
structure DatasetRun where
  result : PyResult (List String)
  urlsEntered : Nat
  dirDeleted : Bool
  networkRequests : Nat
  deriving DecidableEq

/-- The loop of `_fetch_dataset`, with accumulators for the `files` list (in
reverse), the iteration count, the deletion flag and the request count. An
exception raised by an iteration propagates at once; otherwise the iteration's
base path is appended and the loop continues. -/
def fetch_dataset_loop (data_dir : String) (uncompress : Bool) :
    List UrlSpec → List String → Nat → Bool → Nat → DatasetRun
  | [], files, n, deleted, net =>
    { result := .ok files.reverse, urlsEntered := n,
      dirDeleted := deleted, networkRequests := net }
  | u :: rest, files, n, deleted, net =>
    let r := processUrl data_dir uncompress u
    match r.result with
    | .exn e =>
      { result := .exn e, urlsEntered := n + 1,
        dirDeleted := deleted || r.dirDeleted,
        networkRequests := net + r.networkRequests }
    | .ok base =>
      fetch_dataset_loop data_dir uncompress rest (base :: files) (n + 1)
        (deleted || r.dirDeleted) (net + r.networkRequests)

/-- Model of `_fetch_dataset(dataset_name, urls, data_dir, uncompress)` (datasets.py
lines 213-260), for an already-resolved dataset directory `data_dir`. -/
def fetch_dataset (data_dir : String) (uncompress : Bool) (urls : List UrlSpec) : DatasetRun :=
  fetch_dataset_loop data_dir uncompress urls [] 0 false 0

/-! ## ArchiveExtractor: `_uncompress_file` (datasets.py lines 117-157)

    try:
        if file_.endswith('.zip'):
            z = zipfile.Zipfile(file_)
            z.extractall(data_dir)
            z.close()
        elif file_.endswith('.gz'):
            z = gzip.GzipFile(file_)
            name = os.path.splitext(file_)[0]
            f = file(name, 'w')
            z = f.write(z.read())
        elif file_.endswith('.txt'):
            pass
        else:
            tar = tarfile.open(file_, "r")
            tar.extractall(path=data_dir)
            tar.close()
        if delete_archive and not file_.endswith('.txt'):
            os.remove(file_)
        print '   ...done.'
    except Exception as e:
        print 'error: ', e
        raise
-/

/-- The branch of `_uncompress_file` a file name dispatches to, following the
source's `if`/`elif` chain in order. -/
inductive Branch where
  | zip
  | gz
  | txt
  | tar
  deriving DecidableEq

/-- Python `str.endswith(suffix)`. -/
def endswith (s suffix : String) : Bool :=
  List.isSuffixOf suffix.data s.data

/-- Suffix dispatch of `_uncompress_file` (datasets.py lines 137-151),
following the source's `if`/`elif` chain in order. -/
def dispatchBranch (file_ : String) : Branch :=
  if endswith file_ ".zip" then .zip
  else if endswith file_ ".gz" then .gz
  else if endswith file_ ".txt" then .txt
  else .tar

/-- Environment of one `_uncompress_file` call: whether the gzip layer and the
tar layer would succeed on the archive's actual content. -/
structure UncompressEnv where
  gzOk : Bool
  tarOk : Bool
  deriving DecidableEq

/-- Observable behaviour of one `_uncompress_file` call. `gzOutput` is the
sibling file the gz branch writes (the path with the `.gz` suffix stripped). -/
structure UncompressRun where
  result : PyResult Unit
  archiveRemoved : Bool
  gzOutput : Option String
  deriving DecidableEq

/-- Model of `_uncompress_file(file_, delete_archive)` (datasets.py lines 117-157).

Branch by branch:
  * `.zip`: the source calls `zipfile.Zipfile(file_)`, but the `zipfile`
    module defines `ZipFile`, not `Zipfile`; the attribute lookup raises
    `AttributeError` before any extraction happens; the `except` clause
    prints and re-raises, so every `.zip` input raises and the
    `os.remove(file_)` line is never reached;
  * `.gz`: `gzip.GzipFile` decompresses into a sibling file named
    `os.path.splitext(file_)[0]` (the `.gz` suffix stripped); on a gzip-layer
    failure the exception is re-raised;
  * `.txt`: a no-op, and the trailing `not file_.endswith('.txt')` guard also
    skips the removal;
  * anything else: generic `tarfile.open(file_, "r")` extraction; on a
    tar-layer failure the exception is re-raised.
On success the archive is removed exactly when `delete_archive` is set (the
`.txt` guard is false on the gz/tar branches, whose names cannot also end in
`.txt`). -/
def uncompress_file (file_ : String) (delete_archive : Bool) (env : UncompressEnv) :
    UncompressRun :=
  match dispatchBranch file_ with
  | .zip =>
    { result := .exn "AttributeError", archiveRemoved := false, gzOutput := none }
  | .gz =>
    if env.gzOk then
      { result := .ok (), archiveRemoved := delete_archive,
        gzOutput := some (splitextBase file_) }
    else
      { result := .exn "IOError", archiveRemoved := false, gzOutput := none }
  | .txt =>
    { result := .ok (), archiveRemoved := false, gzOutput := none }
  | .tar =>
    if env.tarOk then
      { result := .ok (), archiveRemoved := delete_archive, gzOutput := none }
    else
      { result := .exn "ReadError", archiveRemoved := false, gzOutput := none }

/-! ## Function `fetch_Yeast_data` (datasets.py lines 434-487)

    def fetch_Yeast_data(class1, class2):
        # Indexing starts at 0
        class1 = class1 - 1
        class2 = class2 - 1
        name = "Yeast_data__%i_%i.npy" % (class1, class2)
        ...
            indices = unique_indices(data.y, class1, class2, 100)
        ...
    def fetch_Yeast_5_7():
        return fetch_Yeast_data(5, 7)
-/

/-- The class-pair data derived inside `fetch_Yeast_data`: the cache file name
it reads and writes, and the indices it selects from the label matrix `y`. -/
structure YeastSelection where
  cacheName : String
  indices : List Nat
  deriving DecidableEq

/-- The conversion and selection performed by `fetch_Yeast_data(class1,
class2)` (datasets.py lines 434-473), as a function of the label matrix `y`
that `fetch_data` would supply: both class numbers are decremented first, the
cache file name is formatted from the decremented numbers, and
`unique_indices` is called with the decremented numbers and count 100. -/
def fetch_Yeast_data_sel (y : List (List Int)) (class1 class2 : Int) : YeastSelection :=
  let c1 := class1 - 1
  let c2 := class2 - 1
  { cacheName := "Yeast_data__" ++ toString c1 ++ "_" ++ toString c2 ++ ".npy",
    indices := unique_indices y c1.toNat c2.toNat 100 }

/-- Model of `fetch_Yeast_5_7()` (datasets.py lines 478-479): the fixed entry point for
classes 5 and 7. -/
def fetch_Yeast_5_7_sel (y : List (List Int)) : YeastSelection :=
  fetch_Yeast_data_sel y 5 7

/-! ## Lemmas about `unique_indices` -/

lemma any_eraseIdx_eq_true_iff (row : List Int) (c : Nat) :
    ((row.eraseIdx c).any (fun v => v == 1)) = true ↔
      ∃ j, ∃ h : j < row.length, j ≠ c ∧ row.getD j 0 = 1 := by
  rw [List.any_eq_true]
  constructor
  · rintro ⟨v, hv, hval⟩
    rw [List.mem_eraseIdx_iff_getElem] at hv
    obtain ⟨i, hi, hic, hival⟩ := hv
    refine ⟨i, hi, hic, ?_⟩
    rw [List.getD_eq_getElem row 0 hi, hival]
    exact beq_iff_eq.mp hval
  · rintro ⟨j, hj, hjc, hval⟩
    refine ⟨row.getD j 0, ?_, by rw [hval]; rfl⟩
    rw [List.getD_eq_getElem row 0 hj, List.mem_eraseIdx_iff_getElem]
    exact ⟨j, hj, hjc, rfl⟩

lemma exclusiveTo_eq_true_iff (row : List Int) (c : Nat) :
    exclusiveTo row c = true ↔
      (row.getD c 0 = 1 ∧ ∀ j, j < row.length → j ≠ c → row.getD j 0 ≠ 1) := by
  unfold exclusiveTo
  rw [Bool.and_eq_true, beq_iff_eq, Bool.not_eq_true']
  apply and_congr_right
  intro _
  rw [← Bool.not_eq_true, any_eraseIdx_eq_true_iff]
  push_neg
  constructor
  · intro h j hj hjc
    exact h j hj hjc
  · intro h j hj hjc
    exact h j hj hjc

lemma specExclusive_eq_true_iff (y : List (List Int)) (ncols i c : Nat) :
    specExclusive y ncols i c = true ↔
      ((y.getD i []).getD c 0 = 1 ∧
        ∀ j, j < ncols → j ≠ c → (y.getD i []).getD j 0 ≠ 1) := by
  unfold specExclusive
  rw [Bool.and_eq_true, beq_iff_eq, List.all_eq_true]
  apply and_congr_right
  intro _
  simp only [List.mem_range, Bool.or_eq_true, beq_iff_eq, Bool.not_eq_true', beq_eq_false_iff_ne,
    ne_eq, or_iff_not_imp_left]

lemma maskIndices_eq_specBlock (y : List (List Int)) (ncols c : Nat)
    (hlen : ∀ row ∈ y, row.length = ncols) :
    maskIndices y c = specBlock y ncols c := by
  unfold maskIndices specBlock
  apply List.filter_congr
  intro i hi
  rw [List.mem_range] at hi
  have hrow : y.getD i [] ∈ y := by
    rw [List.getD_eq_getElem y [] hi]
    exact List.getElem_mem hi
  have hl : (y.getD i []).length = ncols := hlen _ hrow
  rw [Bool.eq_iff_iff, exclusiveTo_eq_true_iff, specExclusive_eq_true_iff, hl]

lemma nodup_take_maskIndices (y : List (List Int)) (c n : Nat) :
    ((maskIndices y c).take n).Nodup := by
  apply List.Nodup.sublist (List.take_sublist n _)
  unfold maskIndices
  exact (List.nodup_range _).filter _

/-! ## Lemmas about the fetch pipeline -/

lemma fetch_file_cache_hit_eq (url data_dir : String) (env : FetchEnv)
    (h : env.fileExists = true) :
    fetch_file url data_dir env =
      { result := .ok (some (pathJoin data_dir (basename url))), networkRequests := 0,
        handleOpened := false, handleClosed := false } := by
  simp [fetch_file, h]

lemma fetch_file_never_none (url data_dir : String) (env : FetchEnv) :
    (fetch_file url data_dir env).result ≠ .ok none := by
  obtain ⟨fe, uo, tr⟩ := env
  cases fe <;> cases uo <;> cases tr <;> simp [fetch_file]

lemma processUrl_cache_hit_networkRequests (data_dir : String) (uncompress : Bool)
    (u : UrlSpec) (h1 : u.fenv1.fileExists = true) (h2 : u.fenv2.fileExists = true) :
    (processUrl data_dir uncompress u).networkRequests = 0 := by
  unfold processUrl
  rw [fetch_file_cache_hit_eq u.url data_dir u.fenv1 h1,
    fetch_file_cache_hit_eq u.url data_dir u.fenv2 h2]
  by_cases hu : uncompress <;> by_cases he : u.extract1Ok <;> by_cases he2 : u.extract2Ok <;>
    simp [hu, he, he2]

lemma fetch_dataset_loop_cache_hit_networkRequests (data_dir : String) (uncompress : Bool)
    (specs : List UrlSpec) (files : List String) (n : Nat) (deleted : Bool) (net : Nat)
    (h : ∀ u ∈ specs, u.fenv1.fileExists = true ∧ u.fenv2.fileExists = true) :
    (fetch_dataset_loop data_dir uncompress specs files n deleted net).networkRequests = net := by
  induction specs generalizing files n deleted net with
  | nil => rfl
  | cons u rest ih =>
    obtain ⟨h1, h2⟩ := h u (List.mem_cons_self u rest)
    have hn := processUrl_cache_hit_networkRequests data_dir uncompress u h1 h2
    have hrest : ∀ v ∈ rest, v.fenv1.fileExists = true ∧ v.fenv2.fileExists = true :=
      fun v hv => h v (List.mem_cons_of_mem u hv)
    unfold fetch_dataset_loop
    cases hres : (processUrl data_dir uncompress u).result with
    | exn e =>
      simp [hres, hn]
    | ok base =>
      simp only [hres, hn, Nat.add_zero]
      exact ih (base :: files) (n + 1) _ net hrest

lemma processUrl_fetch_failure (data_dir : String) (uncompress : Bool) (u : UrlSpec)
    (e : String) (h : (fetch_file u.url data_dir u.fenv1).result = .exn e) :
    processUrl data_dir uncompress u =
      { result := .exn e, fetchCalls := 1, extractCalls := 0, dirDeleted := false,
        networkRequests := (fetch_file u.url data_dir u.fenv1).networkRequests } := by
  unfold processUrl
  simp only [h]

/-! ## Claim theorems -/

/-- C1: for a 2-D label matrix with entries in {1,-1} and distinct valid column
indices `classA`, `classB`, `unique_indices` returns exactly the indices of
rows exclusive to `classA` (in ascending original row order, truncated to the
first `maxPerClass` via `take`, hence all available when fewer exist, with no
padding and no error), followed by the indices exclusive to `classB` under the
same rule, the `classA` block preceding the `classB` block. -/
theorem unique_indices_meets_spec (y : List (List Int)) (ncols classA classB m : Nat)
    (hlen : ∀ row ∈ y, row.length = ncols)
    (hval : ∀ row ∈ y, ∀ v ∈ row, v = 1 ∨ v = -1)
    (hA : classA < ncols) (hB : classB < ncols) (hAB : classA ≠ classB) :
    unique_indices y classA classB m
        = (specBlock y ncols classA).take m ++ (specBlock y ncols classB).take m
      ∧ List.Sorted (· < ·) (specBlock y ncols classA)
      ∧ List.Sorted (· < ·) (specBlock y ncols classB)
      ∧ (∀ i, i ∈ specBlock y ncols classA ↔
          (i < y.length ∧ specExclusive y ncols i classA = true))
      ∧ (∀ i, i ∈ specBlock y ncols classB ↔
          (i < y.length ∧ specExclusive y ncols i classB = true)) := by
  refine ⟨?_, ?_, ?_, ?_, ?_⟩
  · unfold unique_indices
    rw [maskIndices_eq_specBlock y ncols classA hlen, maskIndices_eq_specBlock y ncols classB hlen]
  · exact (List.pairwise_lt_range _).filter _
  · exact (List.pairwise_lt_range _).filter _
  · intro i
    simp [specBlock, List.mem_filter, List.mem_range]
  · intro i
    simp [specBlock, List.mem_filter, List.mem_range]

/-- Witness for C1: the theorem applied to the concrete matrix
`[[1,-1],[-1,1],[1,1]]` with `ncols = 2`, `classA = 0`, `classB = 1`,
`maxPerClass = 5`. -/
theorem unique_indices_meets_spec_witness :
    unique_indices [[1,-1],[-1,1],[1,1]] 0 1 5
        = (specBlock [[1,-1],[-1,1],[1,1]] 2 0).take 5
            ++ (specBlock [[1,-1],[-1,1],[1,1]] 2 1).take 5
      ∧ List.Sorted (· < ·) (specBlock [[1,-1],[-1,1],[1,1]] 2 0)
      ∧ List.Sorted (· < ·) (specBlock [[1,-1],[-1,1],[1,1]] 2 1)
      ∧ (∀ i, i ∈ specBlock [[1,-1],[-1,1],[1,1]] 2 0 ↔
          (i < (([[1,-1],[-1,1],[1,1]] : List (List Int))).length
            ∧ specExclusive [[1,-1],[-1,1],[1,1]] 2 i 0 = true))
      ∧ (∀ i, i ∈ specBlock [[1,-1],[-1,1],[1,1]] 2 1 ↔
          (i < (([[1,-1],[-1,1],[1,1]] : List (List Int))).length
            ∧ specExclusive [[1,-1],[-1,1],[1,1]] 2 i 1 = true)) :=
  unique_indices_meets_spec [[1,-1],[-1,1],[1,1]] 2 0 1 5
    (by decide) (by decide) (by decide) (by decide) (by decide)

/-- C2: on the label matrix with rows `(1,-1,-1)`, `(1,1,-1)`, `(-1,1,-1)`,
`(-1,-1,1)`, with `classA = 0`, `classB = 1`, `maxPerClass = 10`,
`unique_indices` returns exactly `[0, 2]`. -/
theorem unique_indices_example_result :
    unique_indices [[1,-1,-1],[1,1,-1],[-1,1,-1],[-1,-1,1]] 0 1 10 = [0, 2] := by
  decide

/-- C10: when the two column arguments coincide, the two exclusivity masks
coincide, the result is one block concatenated with itself, and each selected
index occurs exactly twice in the result; so the no-duplicates guarantee needs
the two columns to be distinct. -/
theorem unique_indices_equal_columns_duplicates (y : List (List Int)) (c1 c2 n : Nat)
    (h : c1 = c2) :
    maskIndices y c1 = maskIndices y c2
      ∧ unique_indices y c1 c2 n = (maskIndices y c1).take n ++ (maskIndices y c1).take n
      ∧ ∀ x ∈ (maskIndices y c1).take n, (unique_indices y c1 c2 n).count x = 2 := by
  subst h
  refine ⟨rfl, rfl, ?_⟩
  intro x hx
  unfold unique_indices
  rw [List.count_append, List.count_eq_one_of_mem (nodup_take_maskIndices y c1 n) hx]

/-- C3: when a file with the URL's basename already exists under the
destination directory, `_fetch_file` returns that path with zero network
requests; consequently an acquisition run in which every (possible) fetch call
finds its file already cached performs zero network requests. -/
theorem fetch_file_cache_hit_no_network (url data_dir : String) (env : FetchEnv)
    (uncompress : Bool) (specs : List UrlSpec)
    (henv : env.fileExists = true)
    (hspecs : ∀ u ∈ specs, u.fenv1.fileExists = true ∧ u.fenv2.fileExists = true) :
    (fetch_file url data_dir env).result = .ok (some (pathJoin data_dir (basename url)))
      ∧ (fetch_file url data_dir env).networkRequests = 0
      ∧ (fetch_dataset data_dir uncompress specs).networkRequests = 0 := by
  rw [fetch_file_cache_hit_eq url data_dir env henv]
  exact ⟨rfl, rfl,
    fetch_dataset_loop_cache_hit_networkRequests data_dir uncompress specs [] 0 false 0 hspecs⟩

/-- Witness for C3: a populated cache for one URL; both potential fetch calls
of the one-URL acquisition are cache hits. -/
theorem fetch_file_cache_hit_no_network_witness :
    (fetch_file "http://h/a.gz" "/cwd/Data"
          { fileExists := true, urlopen := .ok, transferOk := true }).result
        = .ok (some (pathJoin "/cwd/Data" (basename "http://h/a.gz")))
      ∧ (fetch_file "http://h/a.gz" "/cwd/Data"
          { fileExists := true, urlopen := .ok, transferOk := true }).networkRequests = 0
      ∧ (fetch_dataset "/cwd/Data" true
          [{ url := "http://h/a.gz",
             fenv1 := { fileExists := true, urlopen := .ok, transferOk := true },
             fenv2 := { fileExists := true, urlopen := .ok, transferOk := true },
             extract1Ok := true, extract2Ok := true }]).networkRequests = 0 :=
  fetch_file_cache_hit_no_network "http://h/a.gz" "/cwd/Data"
    { fileExists := true, urlopen := .ok, transferOk := true } true
    [{ url := "http://h/a.gz",
       fenv1 := { fileExists := true, urlopen := .ok, transferOk := true },
       fenv2 := { fileExists := true, urlopen := .ok, transferOk := true },
       extract1Ok := true, extract2Ok := true }]
    rfl (by decide)

/-- C4 (evaluation at the failing inputs): when `urlopen` fails with an
HTTP-status error or a connection error, `_fetch_file` raises `NameError`
instead of returning the `None` sentinel — the `finally` clause closes a
never-bound `local_file`, and, in general, no environment makes the call
return `None`. -/
theorem fetch_file_error_raises_instead_of_none :
    (fetch_file "http://noble.gs.washington.edu/yeast/labels_3588_13.txt" "/cwd/Data"
          { fileExists := false, urlopen := .httpError, transferOk := true }).result
        = .exn "NameError"
      ∧ (fetch_file "http://noble.gs.washington.edu/yeast/labels_3588_13.txt" "/cwd/Data"
          { fileExists := false, urlopen := .urlError, transferOk := true }).result
        = .exn "NameError"
      ∧ ∀ (url data_dir : String) (env : FetchEnv),
          (fetch_file url data_dir env).result ≠ .ok none :=
  ⟨rfl, rfl, fetch_file_never_none⟩

/-- C5: on every exit path of `_fetch_file` that begins a download, no open
local file handle remains at exit — whenever the handle was opened it was also
closed; moreover on the paths where `urlopen` succeeds (completed transfer or
transfer error) the handle really is opened and closed.  On the
HTTPError/URLError paths no handle is ever created, both exceptions being
raised before `open(full_name, "wb")` runs. -/
theorem fetch_file_handle_closed (url data_dir : String) (env : FetchEnv)
    (h : env.fileExists = false) :
    ((fetch_file url data_dir env).handleOpened = true →
        (fetch_file url data_dir env).handleClosed = true)
      ∧ (env.urlopen = .ok →
          (fetch_file url data_dir env).handleOpened = true
            ∧ (fetch_file url data_dir env).handleClosed = true) := by
  obtain ⟨fe, uo, tr⟩ := env
  cases fe
  · cases uo <;> cases tr <;> simp [fetch_file]
  · cases h

/-- Witness for C5: a download that begins and completes; the handle is opened
and closed. -/
theorem fetch_file_handle_closed_witness :
    ((fetch_file "http://h/a.gz" "/cwd/Data"
          { fileExists := false, urlopen := .ok, transferOk := true }).handleOpened = true →
        (fetch_file "http://h/a.gz" "/cwd/Data"
          { fileExists := false, urlopen := .ok, transferOk := true }).handleClosed = true)
      ∧ (UrlopenOutcome.ok = .ok →
          (fetch_file "http://h/a.gz" "/cwd/Data"
              { fileExists := false, urlopen := .ok, transferOk := true }).handleOpened = true
            ∧ (fetch_file "http://h/a.gz" "/cwd/Data"
              { fileExists := false, urlopen := .ok, transferOk := true }).handleClosed = true) :=
  fetch_file_handle_closed "http://h/a.gz" "/cwd/Data"
    { fileExists := false, urlopen := .ok, transferOk := true } rfl

/-- C6 counterexample: two URLs, the fetch of the first fails with a
connection error, everything about the second would succeed; `_fetch_dataset`
raises at the first URL (the `NameError` propagating out of `_fetch_file`),
the dataset directory is not deleted, and the second URL is never processed —
refuting "the directory is deleted and the loop continues". -/
theorem fetch_dataset_fetch_failure_counterexample :
    fetch_dataset "/cwd/Data" true
        [{ url := "http://h/a.gz",
           fenv1 := { fileExists := false, urlopen := .urlError, transferOk := true },
           fenv2 := { fileExists := false, urlopen := .ok, transferOk := true },
           extract1Ok := true, extract2Ok := true },
         { url := "http://h/b.gz",
           fenv1 := { fileExists := false, urlopen := .ok, transferOk := true },
           fenv2 := { fileExists := false, urlopen := .ok, transferOk := true },
           extract1Ok := true, extract2Ok := true }]
      = { result := .exn "NameError", urlsEntered := 1, dirDeleted := false,
          networkRequests := 1 } := by
  rfl

/-- C6 amended: when the fetch of a URL fails, `_fetch_file` raises rather
than returning the `None` sentinel (no environment produces a `None` return),
so the `if not full_name` deletion branch of `_fetch_dataset` is unreachable:
the exception propagates at once, the dataset directory is not deleted, and no
further URL is processed. -/
theorem fetch_dataset_fetch_failure_aborts (data_dir : String) (uncompress : Bool)
    (u : UrlSpec) (rest : List UrlSpec) (e : String)
    (h : (fetch_file u.url data_dir u.fenv1).result = .exn e) :
    (∀ (url d : String) (env : FetchEnv), (fetch_file url d env).result ≠ .ok none)
      ∧ (fetch_dataset data_dir uncompress (u :: rest)).result = .exn e
      ∧ (fetch_dataset data_dir uncompress (u :: rest)).dirDeleted = false
      ∧ (fetch_dataset data_dir uncompress (u :: rest)).urlsEntered = 1 := by
  refine ⟨fetch_file_never_none, ?_⟩
  unfold fetch_dataset fetch_dataset_loop
  rw [processUrl_fetch_failure data_dir uncompress u e h]
  exact ⟨rfl, rfl, rfl⟩

/-- Witness for C6: the amended theorem applied to a one-URL environment whose
fetch fails with a connection error, followed by one more URL. -/
theorem fetch_dataset_fetch_failure_aborts_witness :
    (∀ (url d : String) (env : FetchEnv), (fetch_file url d env).result ≠ .ok none)
      ∧ (fetch_dataset "/cwd/Data" true
          [{ url := "http://h/a.gz",
             fenv1 := { fileExists := false, urlopen := .urlError, transferOk := true },
             fenv2 := { fileExists := false, urlopen := .ok, transferOk := true },
             extract1Ok := true, extract2Ok := true },
           { url := "http://h/b.gz",
             fenv1 := { fileExists := false, urlopen := .ok, transferOk := true },
             fenv2 := { fileExists := false, urlopen := .ok, transferOk := true },
             extract1Ok := true, extract2Ok := true }]).result = .exn "NameError"
      ∧ (fetch_dataset "/cwd/Data" true
          [{ url := "http://h/a.gz",
             fenv1 := { fileExists := false, urlopen := .urlError, transferOk := true },
             fenv2 := { fileExists := false, urlopen := .ok, transferOk := true },
             extract1Ok := true, extract2Ok := true },
           { url := "http://h/b.gz",
             fenv1 := { fileExists := false, urlopen := .ok, transferOk := true },
             fenv2 := { fileExists := false, urlopen := .ok, transferOk := true },
             extract1Ok := true, extract2Ok := true }]).dirDeleted = false
      ∧ (fetch_dataset "/cwd/Data" true
          [{ url := "http://h/a.gz",
             fenv1 := { fileExists := false, urlopen := .urlError, transferOk := true },
             fenv2 := { fileExists := false, urlopen := .ok, transferOk := true },
             extract1Ok := true, extract2Ok := true },
           { url := "http://h/b.gz",
             fenv1 := { fileExists := false, urlopen := .ok, transferOk := true },
             fenv2 := { fileExists := false, urlopen := .ok, transferOk := true },
             extract1Ok := true, extract2Ok := true }]).urlsEntered = 1 :=
  fetch_dataset_fetch_failure_aborts "/cwd/Data" true
    { url := "http://h/a.gz",
      fenv1 := { fileExists := false, urlopen := .urlError, transferOk := true },
      fenv2 := { fileExists := false, urlopen := .ok, transferOk := true },
      extract1Ok := true, extract2Ok := true }
    [{ url := "http://h/b.gz",
       fenv1 := { fileExists := false, urlopen := .ok, transferOk := true },
       fenv2 := { fileExists := false, urlopen := .ok, transferOk := true },
       extract1Ok := true, extract2Ok := true }]
    "NameError" rfl

/-- C7: with `uncompress` enabled and a downloaded archive, a first extraction
failure triggers exactly one retry cycle — the same URL is re-fetched, then
re-extracted, giving exactly two fetch calls and two extraction attempts — and
a second extraction failure propagates out of `_fetch_dataset` as a fatal
error with no further retries. -/
theorem fetch_dataset_single_retry (data_dir : String) (u : UrlSpec) (rest : List UrlSpec)
    (p : String) (q : Option String)
    (hfetch1 : (fetch_file u.url data_dir u.fenv1).result = .ok (some p))
    (hextract1 : u.extract1Ok = false)
    (hfetch2 : (fetch_file u.url data_dir u.fenv2).result = .ok q) :
    (processUrl data_dir true u).fetchCalls = 2
      ∧ (processUrl data_dir true u).extractCalls = 2
      ∧ (u.extract2Ok = true → (processUrl data_dir true u).result = .ok (splitextBase p))
      ∧ (u.extract2Ok = false →
          (processUrl data_dir true u).result = .exn "ExtractionError"
            ∧ (fetch_dataset data_dir true (u :: rest)).result = .exn "ExtractionError") := by
  have hp : processUrl data_dir true u =
      if u.extract2Ok then
        { result := .ok (splitextBase p), fetchCalls := 2, extractCalls := 2,
          dirDeleted := false,
          networkRequests := (fetch_file u.url data_dir u.fenv1).networkRequests
            + (fetch_file u.url data_dir u.fenv2).networkRequests }
      else
        { result := .exn "ExtractionError", fetchCalls := 2, extractCalls := 2,
          dirDeleted := false,
          networkRequests := (fetch_file u.url data_dir u.fenv1).networkRequests
            + (fetch_file u.url data_dir u.fenv2).networkRequests } := by
    unfold processUrl
    simp only [hfetch1, hextract1, hfetch2, Bool.false_eq_true, if_false, if_true]
  by_cases he2 : u.extract2Ok
  · rw [hp, if_pos he2]
    exact ⟨rfl, rfl, fun _ => rfl, fun hc => absurd he2 (by rw [hc]; exact Bool.false_ne_true)⟩
  · rw [Bool.not_eq_true] at he2
    rw [hp, if_neg (by rw [he2]; exact Bool.false_ne_true)]
    refine ⟨rfl, rfl, fun hc => absurd hc (by rw [he2]; exact Bool.false_ne_true), fun _ => ⟨rfl, ?_⟩⟩
    unfold fetch_dataset fetch_dataset_loop
    rw [hp, if_neg (by rw [he2]; exact Bool.false_ne_true)]

/-- Witness for C7: first fetch succeeds, first extraction fails, the retry
fetch is a cache hit, and the second extraction fails as well: two fetch
calls, two extraction attempts, and a fatal `ExtractionError`. -/
theorem fetch_dataset_single_retry_witness :
    (processUrl "/cwd/Data" true
          { url := "http://h/a.gz",
            fenv1 := { fileExists := false, urlopen := .ok, transferOk := true },
            fenv2 := { fileExists := true, urlopen := .ok, transferOk := true },
            extract1Ok := false, extract2Ok := false }).fetchCalls = 2
      ∧ (processUrl "/cwd/Data" true
          { url := "http://h/a.gz",
            fenv1 := { fileExists := false, urlopen := .ok, transferOk := true },
            fenv2 := { fileExists := true, urlopen := .ok, transferOk := true },
            extract1Ok := false, extract2Ok := false }).extractCalls = 2
      ∧ (({ url := "http://h/a.gz",
            fenv1 := { fileExists := false, urlopen := .ok, transferOk := true },
            fenv2 := { fileExists := true, urlopen := .ok, transferOk := true },
            extract1Ok := false, extract2Ok := false } : UrlSpec).extract2Ok = true →
          (processUrl "/cwd/Data" true
            { url := "http://h/a.gz",
              fenv1 := { fileExists := false, urlopen := .ok, transferOk := true },
              fenv2 := { fileExists := true, urlopen := .ok, transferOk := true },
              extract1Ok := false, extract2Ok := false }).result
            = .ok (splitextBase (pathJoin "/cwd/Data" (basename "http://h/a.gz"))))
      ∧ (({ url := "http://h/a.gz",
            fenv1 := { fileExists := false, urlopen := .ok, transferOk := true },
            fenv2 := { fileExists := true, urlopen := .ok, transferOk := true },
            extract1Ok := false, extract2Ok := false } : UrlSpec).extract2Ok = false →
          (processUrl "/cwd/Data" true
              { url := "http://h/a.gz",
                fenv1 := { fileExists := false, urlopen := .ok, transferOk := true },
                fenv2 := { fileExists := true, urlopen := .ok, transferOk := true },
                extract1Ok := false, extract2Ok := false }).result = .exn "ExtractionError"
            ∧ (fetch_dataset "/cwd/Data" true
                [{ url := "http://h/a.gz",
                   fenv1 := { fileExists := false, urlopen := .ok, transferOk := true },
                   fenv2 := { fileExists := true, urlopen := .ok, transferOk := true },
                   extract1Ok := false, extract2Ok := false }]).result
              = .exn "ExtractionError") :=
  fetch_dataset_single_retry "/cwd/Data"
    { url := "http://h/a.gz",
      fenv1 := { fileExists := false, urlopen := .ok, transferOk := true },
      fenv2 := { fileExists := true, urlopen := .ok, transferOk := true },
      extract1Ok := false, extract2Ok := false }
    [] (pathJoin "/cwd/Data" (basename "http://h/a.gz"))
    (some (pathJoin "/cwd/Data" (basename "http://h/a.gz")))
    rfl rfl rfl

/-- C8 (evaluation): the suffix dispatch routes `a.zip` to the zip branch,
`b.tar.gz` and `c.gz` to the gzip branch, `d.txt` to the no-op branch and
`e.tar` to the tar branch; the gzip, txt and tar branches behave as the claim
says (sibling output with the `.gz` suffix stripped, no-op, archive removed on
success when `delete_archive` is set, never for `.txt`), but every `.zip`
input raises `AttributeError` — the source says `zipfile.Zipfile` where the
`zipfile` module defines `ZipFile` — so no `.zip` archive is ever extracted or
removed. -/
theorem uncompress_file_zip_branch_broken :
    dispatchBranch "a.zip" = .zip
      ∧ dispatchBranch "b.tar.gz" = .gz
      ∧ dispatchBranch "c.gz" = .gz
      ∧ dispatchBranch "d.txt" = .txt
      ∧ dispatchBranch "e.tar" = .tar
      ∧ (uncompress_file "a.zip" true { gzOk := true, tarOk := true }).result
          = .exn "AttributeError"
      ∧ (uncompress_file "a.zip" true { gzOk := true, tarOk := true }).archiveRemoved = false
      ∧ uncompress_file "c.gz" true { gzOk := true, tarOk := true }
          = { result := .ok (), archiveRemoved := true, gzOutput := some "c" }
      ∧ uncompress_file "b.tar.gz" true { gzOk := true, tarOk := true }
          = { result := .ok (), archiveRemoved := true, gzOutput := some "b.tar" }
      ∧ uncompress_file "d.txt" true { gzOk := true, tarOk := true }
          = { result := .ok (), archiveRemoved := false, gzOutput := none }
      ∧ uncompress_file "e.tar" true { gzOk := true, tarOk := true }
          = { result := .ok (), archiveRemoved := true, gzOutput := none } := by
  refine ⟨rfl, rfl, rfl, rfl, rfl, rfl, rfl, rfl, rfl, rfl, rfl⟩

/-- C9: `fetch_Yeast_data` decrements both user-facing class numbers before
calling `unique_indices`, the class-pair cache file name embeds the
decremented numbers, and the fixed entry point for classes 5 and 7 uses the
cache file `Yeast_data__4_6.npy`, not `Yeast_data__5_7.npy`. -/
theorem fetch_Yeast_data_zero_based (y : List (List Int)) (class1 class2 : Int) :
    (fetch_Yeast_data_sel y class1 class2).indices
        = unique_indices y (class1 - 1).toNat (class2 - 1).toNat 100
      ∧ (fetch_Yeast_data_sel y class1 class2).cacheName
          = "Yeast_data__" ++ toString (class1 - 1) ++ "_" ++ toString (class2 - 1) ++ ".npy"
      ∧ (fetch_Yeast_5_7_sel y).indices = unique_indices y 4 6 100
      ∧ (fetch_Yeast_5_7_sel y).cacheName = "Yeast_data__4_6.npy"
      ∧ (fetch_Yeast_5_7_sel y).cacheName ≠ "Yeast_data__5_7.npy" := by
  refine ⟨rfl, rfl, rfl, rfl, ?_⟩
  rw [show (fetch_Yeast_5_7_sel y).cacheName = "Yeast_data__4_6.npy" from rfl]
  decide

/-- Witness for C10: the theorem applied to the matrix `[[1,-1],[1,1],[-1,1]]`
with both columns `0` and `n = 3`; the selected block there is `[0]`. -/
theorem unique_indices_equal_columns_duplicates_witness :
    maskIndices [[1,-1],[1,1],[-1,1]] 0 = maskIndices [[1,-1],[1,1],[-1,1]] 0
      ∧ unique_indices [[1,-1],[1,1],[-1,1]] 0 0 3
          = (maskIndices [[1,-1],[1,1],[-1,1]] 0).take 3
              ++ (maskIndices [[1,-1],[1,1],[-1,1]] 0).take 3
      ∧ ∀ x ∈ (maskIndices [[1,-1],[1,1],[-1,1]] 0).take 3,
          (unique_indices [[1,-1],[1,1],[-1,1]] 0 0 3).count x = 2 :=
  unique_indices_equal_columns_duplicates [[1,-1],[1,1],[-1,1]] 0 0 3 rfl

end Datasets
